import Mathlib

/-!
Verification of `sync_module.py` (tii_sync_deploy): a shallow embedding of
the session store, login loop, per-task sync engine and dispatcher, with
theorems settling the specification claims.

External collaborators (browser, captcha recognizer, remote portal, SQL
server) are modelled as explicit parameters / result values, following the
interfaces the source code exercises.  All state (the cookie file, the two
database tables) is passed explicitly.
-/

namespace SyncModule

/-! ## SessionStore: cookie file (`save_cookie`, `get_cookie`, `clear_cookies`)

The cookie file is `Option String`: `none` means the file is absent.
`get_cookie` reads the file and applies Python's `str.strip()`
(`f.read().strip()`, line 67 of the source). -/

/-- The characters stripped by Python `str.strip()` on `str`: exactly those
for which `str.isspace()` holds (ASCII whitespace, the file/group/record/unit
separators, next-line, no-break space, and the Unicode space and
line/paragraph separators). -/
def isPyWhitespace (c : Char) : Bool :=
  c = ' ' || c = '\t' || c = '\n' || c = '\r' || c = '\x0b' || c = '\x0c'
    || c = '\x1c' || c = '\x1d' || c = '\x1e' || c = '\x1f'
    || c = '\x85' || c = '\xa0' || c = '\u1680'
    || c = '\u2000' || c = '\u2001' || c = '\u2002' || c = '\u2003'
    || c = '\u2004' || c = '\u2005' || c = '\u2006' || c = '\u2007'
    || c = '\u2008' || c = '\u2009' || c = '\u200a'
    || c = '\u2028' || c = '\u2029' || c = '\u202f' || c = '\u205f'
    || c = '\u3000'

/-- Python `str.strip()`: drop leading and trailing whitespace. -/
def pythonStrip (s : String) : String :=
  ⟨((s.data.dropWhile isPyWhitespace).reverse.dropWhile isPyWhitespace).reverse⟩

/-- The durable session-credential file: `none` = absent. -/
abbrev CookieFile := Option String

/-- `save_cookie`: write the credential string, overwriting any prior value. -/
def save_cookie (s : String) (_f : CookieFile) : CookieFile :=
  some s

/-- `get_cookie`: `None` when the file is absent, otherwise the stripped
contents. -/
def get_cookie (f : CookieFile) : Option String :=
  f.map pythonStrip

/-- `clear_cookies`: remove the credential file (no-op when absent). -/
def clear_cookies (_f : CookieFile) : CookieFile :=
  none

/-! ## Authenticator: `_attempt_login` and `login_and_save_cookie`

The browser and the portal are external; an attempt succeeds exactly when
the portal accepts the submitted form, which requires the recognizer to have
produced the correct captcha text and the configured credentials to be
valid.  On success `_attempt_login` serializes the context cookies and calls
`save_cookie` (source lines 112-117); on failure it writes nothing. -/

/-- One login attempt (`_attempt_login`): returns whether it succeeded and
the resulting cookie-file state.  `recognizerCorrect` says the captcha
recognizer returned the text the portal accepts; `credsValid` says the
configured username/password are valid; `cookies` is the serialized cookie
string of the browsing context after a successful login. -/
def attempt_login (recognizerCorrect credsValid : Bool) (cookies : String)
    (f : CookieFile) : Bool × CookieFile :=
  if recognizerCorrect && credsValid then
    (true, save_cookie cookies f)
  else
    (false, f)

/-- The retry loop of `login_and_save_cookie` (source lines 142-148):
`fuel` counts the remaining iterations of `for attempt in range(max_attempts)`,
`made` the attempts already performed.  Returns (success, attempts made,
final cookie file). -/
def loginLoop (recognizerCorrect credsValid : Bool) (cookies : String) :
    Nat → CookieFile → Nat → Bool × Nat × CookieFile
  | 0, f, made => (false, made, f)
  | fuel + 1, f, made =>
    match attempt_login recognizerCorrect credsValid cookies f with
    | (true, f') => (true, made + 1, f')
    | (false, f') => loginLoop recognizerCorrect credsValid cookies fuel f' (made + 1)

/-- `login_and_save_cookie(max_attempts)`: run up to `max_attempts` attempts,
returning success on the first accepting attempt (the credential has then
been persisted inside the attempt), failure after exhausting the cap. -/
def login_and_save_cookie (recognizerCorrect credsValid : Bool)
    (cookies : String) (max_attempts : Nat) (f : CookieFile) :
    Bool × Nat × CookieFile :=
  loginLoop recognizerCorrect credsValid cookies max_attempts f 0

/-! ## Data model: tasks, remote rows, database tables

Dates are modelled as integers (`Date`), ordered as the SQL `>=`/`<=`
comparisons on `dChgDate` order them.  The `NYDB.AT.getEmpIdnByInsuLicence`
lookup is a server-side SQL function, passed as an explicit parameter
`lookup`. -/

abbrev Date := Int

/-- One element of the remote API's `rows` list (a completion record). -/
structure Row where
  fullname : String
  finish_time : Date
deriving DecidableEq, Repr

/-- A `ReconciliationTask` item as produced by `fetch_tasks` and consumed by
`sync_data` (the dict keys used by the source). -/
structure Item where
  salesregid : String
  finish_start_date : Int
  finish_end_date : Int
  dTrainBeginDate : Date
  dTrainEndDate : Date
  nTotalComplete : Int
  cClassYM : String
deriving DecidableEq, Repr

/-- One row of the detail table `NYDB.AT.InsuExternalTrainingY`. -/
structure DetailRow where
  cClassYM : String
  cInsuLicense : String
  cEmpIdn : String
  cCourse : String
  dChgDate : Date
deriving DecidableEq, Repr

/-- One row of the summary table `NYDB.AT.InsuExternalTrainingX`. -/
structure SummaryRow where
  cInsuLicense : String
  dTrainBeginDate : Date
  dTrainEndDate : Date
  nTotalComplete : Int
  dRefreshDate : Int
deriving DecidableEq, Repr

/-- The relational store the sync engine writes to. -/
structure DBState where
  summary : List SummaryRow
  details : List DetailRow
deriving DecidableEq, Repr

/-- The `WHERE` predicate of `delete_details`:
`cInsuLicense = %s AND dChgDate >= %s AND dChgDate <= %s`. -/
def inWindow (item : Item) (r : DetailRow) : Bool :=
  r.cInsuLicense = item.salesregid
    && item.dTrainBeginDate ≤ r.dChgDate && r.dChgDate ≤ item.dTrainEndDate

/-- `delete_details`: remove the detail rows for this entity inside the
task's date window. -/
def delete_details (item : Item) (details : List DetailRow) : List DetailRow :=
  details.filter (fun r => !(inWindow item r))

/-- `insert_details`: map each fetched row to a detail row (identifier
lookup via `lookup`, completion subject name, completion timestamp) and
bulk-insert; with no rows it returns without touching the cursor. -/
def insert_details (lookup : String → String) (item : Item) (rows : List Row)
    (details : List DetailRow) : List DetailRow :=
  let params := rows.map (fun row =>
    DetailRow.mk item.cClassYM item.salesregid (lookup item.salesregid)
      row.fullname row.finish_time)
  if params.isEmpty then details else details ++ params

/-- The key predicate of `update_summary`:
`cInsuLicense = %s AND dTrainBeginDate = %s AND dTrainEndDate = %s`. -/
def summaryKeyMatch (item : Item) (r : SummaryRow) : Bool :=
  r.cInsuLicense = item.salesregid
    && r.dTrainBeginDate = item.dTrainBeginDate
    && r.dTrainEndDate = item.dTrainEndDate

/-- `update_summary`: set `nTotalComplete = total, dRefreshDate = GETDATE()`
on the matching summary rows (`now` stands for `GETDATE()`). -/
def update_summary (item : Item) (total : Int) (now : Int)
    (summary : List SummaryRow) : List SummaryRow :=
  summary.map (fun r =>
    if summaryKeyMatch item r then
      { r with nTotalComplete := total, dRefreshDate := now }
    else r)

/-! ## SyncEngine: `sync_data`

The remote call's outcome and any database fault are explicit parameters.
`get_db_connection` opens the connection with `autocommit=True` (source
line 218), so each SQL statement commits as soon as it executes: a fault at
a statement leaves the effects of the earlier statements in place.  A fault
while connecting, or at the `DELETE`, leaves the store unchanged. -/

/-- Outcome of the `requests.post` call and response parsing, as `sync_data`
observes it. `total`/`rows` are `Option`s because the source checks
`'total' not in api_data or 'rows' not in api_data`. -/
inductive ApiResult where
  /-- `requests.exceptions.RequestException` raised in transport. -/
  | transportError
  /-- `response.raise_for_status()` raised `HTTPError` for this status. -/
  | httpError (status : Nat)
  /-- `response.json()` raised (body is not JSON): the generic
  `except Exception` branch. -/
  | badJson
  /-- A parsed JSON body, possibly missing `total` or `rows`. -/
  | response (total : Option Int) (rows : Option (List Row))
deriving DecidableEq, Repr

/-- Which database statement (if any) raises `pymssql.Error` during the
write block of `sync_data`.  `atConnect` covers a failure opening the
connection. -/
inductive DbFault where
  | ok
  | atConnect
  | atDelete
  | atInsert
  | atUpdate
deriving DecidableEq, Repr

/-- The write block of `sync_data` (source lines 194-198) under
`autocommit=True`: statements execute in order `DELETE`, `INSERT`,
`UPDATE`, each committing individually; a fault at a statement stops the
block there, keeping the already-committed effects.  With an empty `rows`
list `insert_details` never touches the cursor, so `atInsert` cannot fire
then.  Returns (block succeeded, resulting store). -/
def runDbBlock (lookup : String → String) (item : Item) (rows : List Row)
    (total : Int) (now : Int) (fault : DbFault) (s : DBState) : Bool × DBState :=
  if fault = DbFault.atConnect ∨ fault = DbFault.atDelete then (false, s)
  else
    let s1 : DBState := { s with details := delete_details item s.details }
    if fault = DbFault.atInsert ∧ ¬rows.isEmpty then (false, s1)
    else
      let s2 : DBState := { s1 with details := insert_details lookup item rows s1.details }
      if fault = DbFault.atUpdate then (false, s2)
      else (true, { s2 with summary := update_summary item total now s2.summary })

/-- What one `sync_data` call returns and does: the boolean result, whether
`clear_cookies` was called, and the store left behind. -/
structure SyncResult where
  ok : Bool
  cookieCleared : Bool
  state : DBState
deriving DecidableEq, Repr

/-- `sync_data(item, cookie_str)` (source lines 158-209).  Transport/HTTP
failures clear the cookie file and fail; a body missing `total` or `rows`
clears the cookie file and fails; an unchanged total is a successful no-op;
otherwise the write block runs, and a `pymssql.Error` there fails the task
without clearing the cookie file. -/
def sync_data (lookup : String → String) (item : Item) (api : ApiResult)
    (now : Int) (fault : DbFault) (s : DBState) : SyncResult :=
  match api with
  | ApiResult.transportError => ⟨false, true, s⟩
  | ApiResult.httpError _ => ⟨false, true, s⟩
  | ApiResult.badJson => ⟨false, false, s⟩
  | ApiResult.response total? rows? =>
    match total?, rows? with
    | some total, some rows =>
      if total = item.nTotalComplete then ⟨true, false, s⟩
      else
        let r := runDbBlock lookup item rows total now fault s
        ⟨r.1, false, r.2⟩
    | _, _ => ⟨false, true, s⟩

/-- The stored total for a task's summary key (what a re-read of the task
would report as `nTotalComplete`). -/
def summaryTotal (item : Item) (s : DBState) : Option Int :=
  (s.summary.find? (summaryKeyMatch item)).map SummaryRow.nTotalComplete

/-! ## TaskSource: `fetch_tasks` -/

/-- Outcome of the outstanding-tasks query: either the selected rows or a
raised exception (`except Exception` in the source). -/
inductive StorageQuery where
  | rows (tasks : List Item)
  | err (msg : String)
deriving DecidableEq, Repr

/-- `fetch_tasks` (source lines 254-279): return the queried rows; on any
storage error, log and return the empty list instead of raising. -/
def fetch_tasks (q : StorageQuery) : List Item :=
  match q with
  | StorageQuery.rows tasks => tasks
  | StorageQuery.err _ => []

/-! ## Dispatcher: `process_single_task` and the pool in `main` -/

/-- How one task's processing behaves: `sync_data` returned a boolean, or
an exception escaped into `process_single_task`'s handler. -/
inductive TaskOutcome where
  | returns (b : Bool)
  | raises
deriving DecidableEq, Repr

/-- `process_single_task` (source lines 281-289): forward `sync_data`'s
result; catch any exception and count it as failure. -/
def process_single_task : TaskOutcome → Bool
  | TaskOutcome.returns b => b
  | TaskOutcome.raises => false

/-- A task fails when `process_single_task` reports `False` for it. -/
def failsTask (t : TaskOutcome) : Bool :=
  !(process_single_task t)

/-- The pool in `main` (source lines 315-317): `executor.map` over all
tasks, collecting every result. -/
def run_pool (tasks : List TaskOutcome) : List Bool :=
  tasks.map process_single_task

/-- `success_count = sum(results)` (source line 319). -/
def success_count (tasks : List TaskOutcome) : Nat :=
  (run_pool tasks).count true

/-! ## Sample values used by the witnesses -/

/-- A sample task: entity `A123`, date window `[0, 31]`, last known total 5. -/
def item0 : Item :=
  ⟨"A123", 0, 2678399, 0, 31, 5, "11301"⟩

/-- A sample store: one summary row for `item0` and one detail row inside
its window. -/
def db0 : DBState :=
  ⟨[⟨"A123", 0, 31, 5, 0⟩], [⟨"11301", "A123", "E1", "Alice", 10⟩]⟩

/-- A sample identifier lookup (`NYDB.AT.getEmpIdnByInsuLicence`). -/
def lookup0 : String → String := fun _ => "E1"

end SyncModule

namespace SyncModule

/-! ## Claim theorems -/

/-- C2: when the remote response's `total` equals the task's
`nTotalComplete`, `sync_data` performs zero database writes (the store is
returned unchanged), does not touch the cookie file, and returns success. -/
theorem sync_data_unchanged_total_noop (lookup : String → String) (item : Item)
    (total : Int) (rows : List Row) (now : Int) (fault : DbFault) (s : DBState)
    (h : total = item.nTotalComplete) :
    sync_data lookup item (ApiResult.response (some total) (some rows)) now fault s
      = ⟨true, false, s⟩ := by
  simp [sync_data, h]

/-- Witness for C2 at a concrete task and store. -/
theorem sync_data_unchanged_total_noop_witness :
    sync_data lookup0 item0 (ApiResult.response (some 5) (some [⟨"Bob", 12⟩])) 7
        DbFault.ok db0 = ⟨true, false, db0⟩ :=
  sync_data_unchanged_total_noop lookup0 item0 5 [⟨"Bob", 12⟩] 7 DbFault.ok db0
    (by decide)

/-- C3: on a transport failure, on an HTTP error status, and on a response
body missing `total` or missing `rows`, `sync_data` clears the stored
session credential and reports failure, leaving the store untouched. -/
theorem sync_data_remote_failure_clears_cookie (lookup : String → String)
    (item : Item) (now : Int) (fault : DbFault) (s : DBState) :
    sync_data lookup item ApiResult.transportError now fault s = ⟨false, true, s⟩
    ∧ (∀ status : Nat,
        sync_data lookup item (ApiResult.httpError status) now fault s = ⟨false, true, s⟩)
    ∧ (∀ rows? : Option (List Row),
        sync_data lookup item (ApiResult.response none rows?) now fault s = ⟨false, true, s⟩)
    ∧ (∀ total? : Option Int,
        sync_data lookup item (ApiResult.response total? none) now fault s = ⟨false, true, s⟩) := by
  refine ⟨rfl, fun _ => rfl, fun rows? => by cases rows? <;> rfl,
    fun total? => by cases total? <;> rfl⟩

/-- C4: when a database error occurs during the write block, `sync_data`
reports failure for the task but does not clear the cookie file. -/
theorem sync_data_db_error_keeps_cookie (lookup : String → String) (item : Item)
    (total : Int) (rows : List Row) (now : Int) (fault : DbFault) (s : DBState)
    (hne : total ≠ item.nTotalComplete)
    (hfail : (runDbBlock lookup item rows total now fault s).1 = false) :
    sync_data lookup item (ApiResult.response (some total) (some rows)) now fault s
      = ⟨false, false, (runDbBlock lookup item rows total now fault s).2⟩ := by
  simp [sync_data, hne, hfail]

/-- Witness for C4: a `pymssql.Error` at the `DELETE` statement. -/
theorem sync_data_db_error_keeps_cookie_witness :
    sync_data lookup0 item0 (ApiResult.response (some 7) (some [⟨"Bob", 12⟩])) 9
        DbFault.atDelete db0
      = ⟨false, false,
          (runDbBlock lookup0 item0 [⟨"Bob", 12⟩] 7 9 DbFault.atDelete db0).2⟩ :=
  sync_data_db_error_keeps_cookie lookup0 item0 7 [⟨"Bob", 12⟩] 9 DbFault.atDelete
    db0 (by decide) (by decide)

/-- C8: on any storage error while querying outstanding tasks,
`fetch_tasks` returns the empty list instead of raising. -/
theorem fetch_tasks_storage_error_empty (msg : String) :
    fetch_tasks (StorageQuery.err msg) = [] :=
  rfl

/-- C10: with a changed total and an empty `rows` list, a fault-free
`sync_data` run deletes the window's detail rows, inserts nothing, updates
the summary total, reports success, and leaves the detail table empty for
that entity/window. -/
theorem sync_data_empty_rows_replaces (lookup : String → String) (item : Item)
    (total : Int) (now : Int) (s : DBState)
    (hne : total ≠ item.nTotalComplete) :
    sync_data lookup item (ApiResult.response (some total) (some [])) now
        DbFault.ok s
      = ⟨true, false,
          ⟨update_summary item total now s.summary, delete_details item s.details⟩⟩
    ∧ (delete_details item s.details).filter (inWindow item) = [] := by
  constructor
  · simp [sync_data, hne, runDbBlock, insert_details]
  · rw [List.filter_eq_nil_iff]
    intro r hr
    have h := List.of_mem_filter hr
    simp_all [delete_details]

/-- Witness for C10 at a concrete task and store. -/
theorem sync_data_empty_rows_replaces_witness :
    sync_data lookup0 item0 (ApiResult.response (some 0) (some [])) 9 DbFault.ok db0
      = ⟨true, false,
          ⟨update_summary item0 0 9 db0.summary, delete_details item0 db0.details⟩⟩
    ∧ (delete_details item0 db0.details).filter (inWindow item0) = [] :=
  sync_data_empty_rows_replaces lookup0 item0 0 9 db0 (by decide)

/-- Dropping a prefix predicate that the head does not satisfy is the
identity. -/
theorem dropWhile_eq_self_of_head (p : Char → Bool) (l : List Char)
    (h : l.head?.all (fun c => !p c) = true) : l.dropWhile p = l := by
  cases l with
  | nil => rfl
  | cons a t =>
    simp only [List.head?_cons, Option.all_some, Bool.not_eq_true'] at h
    simp [List.dropWhile_cons, h]

/-- C9: reading the credential back after saving (`get_cookie` after
`save_cookie s`) returns exactly `s` whenever `s` has no leading or
trailing Python whitespace (the load strips surrounding whitespace). -/
theorem get_cookie_after_save (s : String) (f : CookieFile)
    (h1 : s.data.head?.all (fun c => !isPyWhitespace c) = true)
    (h2 : s.data.getLast?.all (fun c => !isPyWhitespace c) = true) :
    get_cookie (save_cookie s f) = some s := by
  unfold get_cookie save_cookie pythonStrip
  simp only [Option.map_some']
  congr 1
  rw [dropWhile_eq_self_of_head _ _ h1]
  rw [dropWhile_eq_self_of_head _ _ (by rwa [List.head?_reverse])]
  rw [List.reverse_reverse]

/-- Witness for C9: round-trip of a concrete stripped credential string. -/
theorem get_cookie_after_save_witness :
    get_cookie (save_cookie "sid=abc; tok=9" none) = some "sid=abc; tok=9" :=
  get_cookie_after_save "sid=abc; tok=9" none (by decide) (by decide)

/-- With a recognizer that never produces the accepted captcha text, every
iteration of the retry loop fails and leaves the cookie file untouched. -/
theorem loginLoop_fail (cv : Bool) (cookies : String) :
    ∀ (fuel : Nat) (f : CookieFile) (made : Nat),
      loginLoop false cv cookies fuel f made = (false, made + fuel, f) := by
  intro fuel
  induction fuel with
  | zero => intro f made; rfl
  | succ n ih =>
    intro f made
    have hstep : attempt_login false cv cookies f = (false, f) := by
      simp [attempt_login]
    simp only [loginLoop, hstep, ih]
    refine congrArg (fun k => ((false : Bool), k, f)) ?_
    omega

/-- C7: with a recognizer that always returns the accepted captcha text and
valid credentials, `login_and_save_cookie` succeeds on attempt 1 and
persists the serialized cookies; with a recognizer that always fails, it
performs exactly `max_attempts` attempts, reports failure, and leaves the
cookie file exactly as it was (no session file written). -/
theorem login_and_save_cookie_attempts (cv : Bool) (cookies : String)
    (f : CookieFile) (max_attempts : Nat) :
    (1 ≤ max_attempts →
      login_and_save_cookie true true cookies max_attempts f
        = (true, 1, some cookies))
    ∧ login_and_save_cookie false cv cookies max_attempts f
        = (false, max_attempts, f) := by
  constructor
  · intro h
    cases max_attempts with
    | zero => omega
    | succ n =>
      simp [login_and_save_cookie, loginLoop, attempt_login, save_cookie]
  · have := loginLoop_fail cv cookies max_attempts f 0
    simpa [login_and_save_cookie] using this

/-- Witness for C7: ten attempts with a correct recognizer succeed at once;
three attempts with a failing recognizer all fail and write nothing. -/
theorem login_and_save_cookie_attempts_witness :
    login_and_save_cookie true true "sid=1" 10 none = (true, 1, some "sid=1")
    ∧ login_and_save_cookie false true "sid=1" 3 (some "old") = (false, 3, some "old") :=
  ⟨(login_and_save_cookie_attempts true "sid=1" none 10).1 (by decide),
   (login_and_save_cookie_attempts true "sid=1" (some "old") 3).2⟩

/-- Successes and failures of a pool run partition the task list. -/
theorem success_count_add_failures (tasks : List TaskOutcome) :
    success_count tasks + (tasks.filter failsTask).length = tasks.length := by
  induction tasks with
  | nil => rfl
  | cons t ts ih =>
    cases hpt : process_single_task t <;>
      simp [success_count, run_pool, failsTask, List.count_cons, hpt,
        List.filter_cons] at * <;>
      omega

/-- C5: the pool processes all `N` tasks (one result per task, no early
abort), a raising task is just counted as a failure, the tally is
`successCount = N - K` when exactly `K` tasks fail, and the tally is
invariant under reordering of the tasks. -/
theorem dispatcher_tally (tasks : List TaskOutcome) (K : Nat)
    (hK : K = (tasks.filter failsTask).length) :
    (run_pool tasks).length = tasks.length
    ∧ success_count tasks = tasks.length - K
    ∧ ∀ tasks' : List TaskOutcome, tasks'.Perm tasks →
        success_count tasks' = success_count tasks := by
  refine ⟨List.length_map _ _, ?_, ?_⟩
  · have h := success_count_add_failures tasks
    omega
  · intro tasks' hperm
    exact List.Perm.count_eq (List.Perm.map process_single_task hperm) true

/-- Witness for C5: three tasks of which two fail (one returning `False`,
one raising) give a tally of 1 of 3, also after reordering. -/
theorem dispatcher_tally_witness :
    (run_pool [TaskOutcome.returns true, TaskOutcome.returns false, TaskOutcome.raises]).length = 3
    ∧ success_count [TaskOutcome.returns true, TaskOutcome.returns false, TaskOutcome.raises] = 3 - 2
    ∧ success_count [TaskOutcome.raises, TaskOutcome.returns false, TaskOutcome.returns true]
        = success_count [TaskOutcome.returns true, TaskOutcome.returns false, TaskOutcome.raises] := by
  have h := dispatcher_tally
    [TaskOutcome.returns true, TaskOutcome.returns false, TaskOutcome.raises] 2
    (by decide)
  exact ⟨h.1, h.2.1,
    h.2.2 [TaskOutcome.raises, TaskOutcome.returns false, TaskOutcome.returns true]
      (by decide)⟩

/-- The summary update leaves the key columns of every row unchanged. -/
theorem summaryKeyMatch_update (item : Item) (total now : Int) (r : SummaryRow) :
    summaryKeyMatch item { r with nTotalComplete := total, dRefreshDate := now }
      = summaryKeyMatch item r :=
  rfl

/-- After `update_summary`, the stored total at the task's key is the new
total (when the key was present at all). -/
theorem summaryTotal_update_summary (item : Item) (total now : Int)
    (summary : List SummaryRow) (d d' : List DetailRow) :
    summaryTotal item ⟨update_summary item total now summary, d⟩
      = (summaryTotal item ⟨summary, d'⟩).map (fun _ => total) := by
  induction summary with
  | nil => rfl
  | cons r rs ih =>
    by_cases h : summaryKeyMatch item r
    · simp [summaryTotal, update_summary, List.find?_cons, summaryKeyMatch_update, h]
    · simpa [summaryTotal, update_summary, List.find?_cons, summaryKeyMatch_update,
        h] using ih

/-- C6: after a fault-free `sync_data` run that applied a changed remote
total, the stored total equals the remote total, so re-reading the task
yields `nTotalComplete = total`; a second `sync_data` call for that re-read
task with the unchanged remote snapshot is a no-op returning success, and
the final store is identical to the store after the first call. -/
theorem sync_data_twice_idempotent (lookup : String → String) (item : Item)
    (total : Int) (rows : List Row) (now now' : Int) (fault : DbFault) (s : DBState)
    (hchanged : total ≠ item.nTotalComplete)
    (hrow : (summaryTotal item s).isSome = true) :
    summaryTotal item
        (sync_data lookup item (ApiResult.response (some total) (some rows)) now
          DbFault.ok s).state = some total
    ∧ sync_data lookup { item with nTotalComplete := total }
        (ApiResult.response (some total) (some rows)) now' fault
        (sync_data lookup item (ApiResult.response (some total) (some rows)) now
          DbFault.ok s).state
      = ⟨true, false,
          (sync_data lookup item (ApiResult.response (some total) (some rows)) now
            DbFault.ok s).state⟩ := by
  have hr1 : (sync_data lookup item (ApiResult.response (some total) (some rows))
      now DbFault.ok s).state
      = ⟨update_summary item total now s.summary,
          insert_details lookup item rows (delete_details item s.details)⟩ := by
    simp [sync_data, hchanged, runDbBlock]
  constructor
  · rw [hr1, summaryTotal_update_summary item total now s.summary _ s.details]
    obtain ⟨t0, ht0⟩ := Option.isSome_iff_exists.mp hrow
    have ht0' : summaryTotal item ⟨s.summary, s.details⟩ = some t0 := ht0
    rw [ht0']
    rfl
  · simp [sync_data]

/-- Witness for C6: first sync applies total 7, the re-read task then
short-circuits with no writes. -/
theorem sync_data_twice_idempotent_witness :
    summaryTotal item0
        (sync_data lookup0 item0 (ApiResult.response (some 7) (some [⟨"Bob", 12⟩])) 1
          DbFault.ok db0).state = some 7
    ∧ sync_data lookup0 { item0 with nTotalComplete := 7 }
        (ApiResult.response (some 7) (some [⟨"Bob", 12⟩])) 2 DbFault.atDelete
        (sync_data lookup0 item0 (ApiResult.response (some 7) (some [⟨"Bob", 12⟩])) 1
          DbFault.ok db0).state
      = ⟨true, false,
          (sync_data lookup0 item0 (ApiResult.response (some 7) (some [⟨"Bob", 12⟩])) 1
            DbFault.ok db0).state⟩ :=
  sync_data_twice_idempotent lookup0 item0 7 [⟨"Bob", 12⟩] 1 2 DbFault.atDelete db0
    (by decide) (by decide)

/-- C1 counterexample: at a concrete task, store, and a `pymssql.Error`
raised by the bulk insert, the run fails with the window's old detail rows
deleted and nothing inserted — a state distinct both from the initial store
and from the fully-applied store, so the partial application is observable
(the connection is opened with `autocommit=True`). -/
theorem sync_data_not_atomic_counterexample :
    (sync_data lookup0 item0 (ApiResult.response (some 7) (some [⟨"Bob", 12⟩])) 99
        DbFault.atInsert db0).ok = false
    ∧ (sync_data lookup0 item0 (ApiResult.response (some 7) (some [⟨"Bob", 12⟩])) 99
        DbFault.atInsert db0).state.details = []
    ∧ db0.details ≠ []
    ∧ (sync_data lookup0 item0 (ApiResult.response (some 7) (some [⟨"Bob", 12⟩])) 99
        DbFault.atInsert db0).state ≠ db0
    ∧ (sync_data lookup0 item0 (ApiResult.response (some 7) (some [⟨"Bob", 12⟩])) 99
        DbFault.atInsert db0).state
      ≠ (sync_data lookup0 item0 (ApiResult.response (some 7) (some [⟨"Bob", 12⟩])) 99
        DbFault.ok db0).state := by
  refine ⟨rfl, rfl, by decide, by decide, by decide⟩

/-- C1 (amended): when the remote total differs, the delete, bulk insert,
and summary update run sequentially on an `autocommit=True` connection;
each statement commits as it executes, so a fault at one statement leaves
the earlier statements' effects committed and the call reports failure,
while a fault-free run applies all three and reports success. -/
theorem sync_data_autocommit_stepwise (lookup : String → String) (item : Item)
    (total : Int) (rows : List Row) (now : Int) (s : DBState)
    (hne : total ≠ item.nTotalComplete) :
    sync_data lookup item (ApiResult.response (some total) (some rows)) now
        DbFault.ok s
      = ⟨true, false,
          ⟨update_summary item total now s.summary,
            insert_details lookup item rows (delete_details item s.details)⟩⟩
    ∧ sync_data lookup item (ApiResult.response (some total) (some rows)) now
        DbFault.atConnect s = ⟨false, false, s⟩
    ∧ sync_data lookup item (ApiResult.response (some total) (some rows)) now
        DbFault.atDelete s = ⟨false, false, s⟩
    ∧ (rows.isEmpty = false →
        sync_data lookup item (ApiResult.response (some total) (some rows)) now
          DbFault.atInsert s
        = ⟨false, false, ⟨s.summary, delete_details item s.details⟩⟩)
    ∧ sync_data lookup item (ApiResult.response (some total) (some rows)) now
        DbFault.atUpdate s
      = ⟨false, false,
          ⟨s.summary, insert_details lookup item rows (delete_details item s.details)⟩⟩ := by
  refine ⟨?_, ?_, ?_, ?_, ?_⟩
  · simp [sync_data, hne, runDbBlock]
  · simp [sync_data, hne, runDbBlock]
  · simp [sync_data, hne, runDbBlock]
  · intro hrows
    simp [sync_data, hne, runDbBlock, hrows]
  · simp [sync_data, hne, runDbBlock]

/-- Witness for the amended C1 at a concrete task and store. -/
theorem sync_data_autocommit_stepwise_witness :
    sync_data lookup0 item0 (ApiResult.response (some 7) (some [⟨"Bob", 12⟩])) 99
        DbFault.ok db0
      = ⟨true, false,
          ⟨update_summary item0 7 99 db0.summary,
            insert_details lookup0 item0 [⟨"Bob", 12⟩] (delete_details item0 db0.details)⟩⟩
    ∧ sync_data lookup0 item0 (ApiResult.response (some 7) (some [⟨"Bob", 12⟩])) 99
        DbFault.atConnect db0 = ⟨false, false, db0⟩
    ∧ sync_data lookup0 item0 (ApiResult.response (some 7) (some [⟨"Bob", 12⟩])) 99
        DbFault.atDelete db0 = ⟨false, false, db0⟩
    ∧ ((([⟨"Bob", 12⟩] : List Row)).isEmpty = false →
        sync_data lookup0 item0 (ApiResult.response (some 7) (some [⟨"Bob", 12⟩])) 99
          DbFault.atInsert db0
        = ⟨false, false, ⟨db0.summary, delete_details item0 db0.details⟩⟩)
    ∧ sync_data lookup0 item0 (ApiResult.response (some 7) (some [⟨"Bob", 12⟩])) 99
        DbFault.atUpdate db0
      = ⟨false, false,
          ⟨db0.summary, insert_details lookup0 item0 [⟨"Bob", 12⟩] (delete_details item0 db0.details)⟩⟩ :=
  sync_data_autocommit_stepwise lookup0 item0 7 [⟨"Bob", 12⟩] 99 db0 (by decide)

end SyncModule
